import Mathlib

/-!
Shallow embedding of `src/align.py` (module `stringalign`): a Needleman-Wunsch
global aligner with affine gap penalties over three coupled score matrices.

Scores are integers extended with the `+inf` produced by Python's
`float("inf")`: we model them as `WithTop Int`.  All arithmetic performed by
the program is `int + int` or `int + inf`, and `min`, both of which `WithTop
Int` reproduces exactly.
-/

namespace Stringalign

/-- A score value: an integer or `+inf` (Python `float("inf")`). -/
abbrev Score := WithTop ℤ

/-- One cell of the three coupled matrices: `(matchMatrix, gapMatrix1, gapMatrix2)`. -/
abbrev Cell := Score × Score × Score

/-- Module constant `GAP_OPENING_PENALTY = 2` (align.py line 14). -/
def GAP_OPENING_PENALTY : ℤ := 2
/-- Module constant `GAP_EXTENSION_PENALTY = 1` (align.py line 15). -/
def GAP_EXTENSION_PENALTY : ℤ := 1
/-- Module constant `MISMATCH_PENALTY = 1` (align.py line 16). -/
def MISMATCH_PENALTY : ℤ := 1
/-- Module constant `MATCH_BONUS = -2` (align.py line 17). -/
def MATCH_BONUS : ℤ := -2

/-- The four scoring parameters of `StringAligner.__init__`. -/
structure Config where
  gapOpeningPenalty : ℤ
  gapExtensionPenalty : ℤ
  mismatchPenalty : ℤ
  matchBonus : ℤ
deriving DecidableEq

/-- The default configuration from the module constants. -/
def defaultConfig : Config :=
  ⟨GAP_OPENING_PENALTY, GAP_EXTENSION_PENALTY, MISMATCH_PENALTY, MATCH_BONUS⟩

/-- The configuration constraints asserted by `__init__` (align.py lines 38-41). -/
abbrev Config.valid (c : Config) : Prop :=
  0 < c.gapOpeningPenalty ∧ 0 ≤ c.gapExtensionPenalty ∧
    0 < c.mismatchPenalty ∧ c.matchBonus ≤ 0

/-- The gap marker character emitted by `_constructAlignment` (align.py lines 188, 193). -/
def gapChar : Char := '-'

/-- Interior recurrence of `_computeScoreMatrix` (align.py lines 127-148) for one
cell `(i, j)` with `i, j >= 1`, given the diagonal neighbour `(i-1, j-1)`, the
left neighbour `(i, j-1)` and the upper neighbour `(i-1, j)`. -/
def fillCell (c : Config) (ch1 ch2 : Char) (diag left up : Cell) : Cell :=
  let matchScore : Score :=
    if ch1 = ch2 then (c.matchBonus : Score) else (c.mismatchPenalty : Score)
  ( matchScore + min diag.1 (min diag.2.1 diag.2.2)
  , min ((c.gapOpeningPenalty : Score) + (c.gapExtensionPenalty : Score) + left.1)
      (min ((c.gapExtensionPenalty : Score) + left.2.1)
        ((c.gapOpeningPenalty : Score) + (c.gapExtensionPenalty : Score) + left.2.2))
  , min ((c.gapOpeningPenalty : Score) + (c.gapExtensionPenalty : Score) + up.1)
      (min ((c.gapOpeningPenalty : Score) + (c.gapExtensionPenalty : Score) + up.2.1)
        ((c.gapExtensionPenalty : Score) + up.2.2)) )

/-- Row 0 of the three matrices after `_initializeMatrix` (align.py lines 96-107):
`matchMatrix[0][j] = inf` (line 96); `gapMatrix1[0][j] = gapOpen + gapExtend*(j-1)`
for `j >= 1` (line 98) while `gapMatrix1[0][0]` is overwritten to `inf` by the
`i = 0` pass of the column loop (line 102); `gapMatrix2[0][j] = inf` since the
whole row is overwritten last (line 107). -/
def row0 (c : Config) : ℕ → Cell
  | 0 => (⊤, ⊤, ⊤)
  | j + 1 => (⊤, ((c.gapOpeningPenalty + c.gapExtensionPenalty * (j : ℤ) : ℤ) : Score), ⊤)

/-- Fill of one interior row `i >= 1`, column by column, given the previous row
as a function of the column index (align.py lines 125-148).  `bnd` is the
column-0 boundary cell of this row from `_initializeMatrix` (lines 100-103). -/
def rowStep (c : Config) (ch1 : Char) (s2 : List Char) (prev : ℕ → Cell) (bnd : Cell) :
    ℕ → Cell
  | 0 => bnd
  | j + 1 =>
    fillCell c ch1 (s2.getD j ' ') (prev j) (rowStep c ch1 s2 prev bnd j) (prev (j + 1))

/-- The three matrices of `_computeScoreMatrix`, row by row: row `i+1` has
column-0 boundary `matchMatrix = inf`, `gapMatrix1 = inf`,
`gapMatrix2 = gapOpen + gapExtend * i` (align.py lines 100-103) and its interior
follows the recurrence (lines 127-148). -/
def rows (c : Config) (s1 s2 : List Char) : ℕ → ℕ → Cell
  | 0 => row0 c
  | i + 1 =>
    rowStep c (s1.getD i ' ') s2 (rows c s1 s2 i)
      (⊤, ⊤, ((c.gapOpeningPenalty + c.gapExtensionPenalty * (i : ℤ) : ℤ) : Score))

/-- Value of all three matrices at `(i, j)` after the forward fill. -/
def cell (c : Config) (s1 s2 : List Char) (i j : ℕ) : Cell :=
  rows c s1 s2 i j

/-- `self._matchMatrix[i][j]` after the forward fill. -/
def matchMatrix (c : Config) (s1 s2 : List Char) (i j : ℕ) : Score :=
  (cell c s1 s2 i j).1

/-- `self._gapMatrix1[i][j]` after the forward fill. -/
def gapMatrix1 (c : Config) (s1 s2 : List Char) (i j : ℕ) : Score :=
  (cell c s1 s2 i j).2.1

/-- `self._gapMatrix2[i][j]` after the forward fill. -/
def gapMatrix2 (c : Config) (s1 s2 : List Char) (i j : ℕ) : Score :=
  (cell c s1 s2 i j).2.2

/-- `getAlignmentScore` (align.py lines 73-79): the minimum of the three
bottom-right cells. -/
def getAlignmentScore (c : Config) (s1 s2 : List Char) : Score :=
  min (matchMatrix c s1 s2 s1.length s2.length)
    (min (gapMatrix1 c s1 s2 s1.length s2.length)
      (gapMatrix2 c s1 s2 s1.length s2.length))

/-- Which matrix the traceback is currently in (`currentMatrix`, align.py
lines 171-176 and 198-203). -/
inductive TbState where
  | matchSt : TbState
  | gap1St : TbState
  | gap2St : TbState
deriving DecidableEq

/-- Failure modes of the traceback model.  `inconsistentState` is the
`ValueError` raised at align.py line 205.  `invalidIndex` and `outOfFuel`
cannot occur in the Python code (no bounds checks, unbounded loop); they mark
model states proven unreachable below. -/
inductive AlignError where
  | inconsistentState : AlignError
  | invalidIndex : AlignError
  | outOfFuel : AlignError
deriving DecidableEq

/-- State re-derivation after each traceback move (align.py lines 197-205):
compute the minimum of the three matrix values at the current position and
compare against the matrices in the order match, gap1, gap2; raise the
`ValueError` if none compares equal. -/
def selectState (c : Config) (s1 s2 : List Char) (i j : ℕ) : Except AlignError TbState :=
  let score := min (matchMatrix c s1 s2 i j)
    (min (gapMatrix1 c s1 s2 i j) (gapMatrix2 c s1 s2 i j))
  if score = matchMatrix c s1 s2 i j then .ok .matchSt
  else if score = gapMatrix1 c s1 s2 i j then .ok .gap1St
  else if score = gapMatrix2 c s1 s2 i j then .ok .gap2St
  else .error .inconsistentState

/-- Choice of the starting matrix (align.py lines 170-176): compare the overall
score against the bottom-right cells in order; the final `else` takes
`gapMatrix2` with no failure branch. -/
def initialState (c : Config) (s1 s2 : List Char) : TbState :=
  let score := getAlignmentScore c s1 s2
  if score = matchMatrix c s1 s2 s1.length s2.length then .matchSt
  else if score = gapMatrix1 c s1 s2 s1.length s2.length then .gap1St
  else .gap2St

/-- The traceback loop of `_constructAlignment` (align.py lines 178-205).  Each
pass appends one aligned column to the accumulators (the Python code appends to
the end of the growing strings and reverses at the end), moves, and re-derives
the state at the new position.  Python performs no bounds checks and no fuel
accounting; a move that would index below position 0 (Python would silently
index from the end with a negative index) and fuel exhaustion are modelled as
errors and proven unreachable below. -/
def traceback (c : Config) (s1 s2 : List Char) :
    ℕ → TbState → ℕ → ℕ → List Char → List Char →
      Except AlignError (List Char × List Char)
  | 0, _, i, j, acc1, acc2 =>
    if i = 0 ∧ j = 0 then .ok (acc1, acc2) else .error .outOfFuel
  | f + 1, .matchSt, i, j, acc1, acc2 =>
    if i = 0 ∧ j = 0 then .ok (acc1, acc2)
    else
      if 1 ≤ i ∧ 1 ≤ j then
        match selectState c s1 s2 (i - 1) (j - 1) with
        | .ok st2 =>
          traceback c s1 s2 f st2 (i - 1) (j - 1)
            (acc1 ++ [s1.getD (i - 1) ' ']) (acc2 ++ [s2.getD (j - 1) ' '])
        | .error e => .error e
      else .error .invalidIndex
  | f + 1, .gap1St, i, j, acc1, acc2 =>
    if i = 0 ∧ j = 0 then .ok (acc1, acc2)
    else
      if 1 ≤ j then
        match selectState c s1 s2 i (j - 1) with
        | .ok st2 =>
          traceback c s1 s2 f st2 i (j - 1)
            (acc1 ++ [gapChar]) (acc2 ++ [s2.getD (j - 1) ' '])
        | .error e => .error e
      else .error .invalidIndex
  | f + 1, .gap2St, i, j, acc1, acc2 =>
    if i = 0 ∧ j = 0 then .ok (acc1, acc2)
    else
      if 1 ≤ i then
        match selectState c s1 s2 (i - 1) j with
        | .ok st2 =>
          traceback c s1 s2 f st2 (i - 1) j
            (acc1 ++ [s1.getD (i - 1) ' ']) (acc2 ++ [gapChar])
        | .error e => .error e
      else .error .invalidIndex

/-- `_constructAlignment` (align.py lines 157-212): pick the starting matrix,
run the traceback from `(len(s1), len(s2))`, and reverse both accumulated
strings.  The loop runs at most `len(s1) + len(s2)` passes, which we supply as
fuel. -/
def constructAlignment (c : Config) (s1 s2 : List Char) :
    Except AlignError (List Char × List Char) :=
  match traceback c s1 s2 (s1.length + s2.length) (initialState c s1 s2)
      s1.length s2.length [] [] with
  | .ok (a1, a2) => .ok (a1.reverse, a2.reverse)
  | .error e => .error e

/-- Public method `align` (align.py lines 61-71): returns the constructed
alignment. -/
def align (c : Config) (s1 s2 : List Char) : Except AlignError (List Char × List Char) :=
  constructAlignment c s1 s2

/-- Removal of gap markers from an aligned string (the spec's round-trip). -/
def removeGaps (l : List Char) : List Char :=
  l.filter (fun ch => decide (ch ≠ gapChar))

/-- A minimal model of Python runtime types, enough to distinguish strings from
other values passed to `StringAligner.__init__`. -/
inductive PyTy where
  | strTy : PyTy
  | intTy : PyTy
  | noneTy : PyTy
deriving DecidableEq

/-- A minimal model of Python values passed as `s1` / `s2`. -/
inductive PyVal where
  | pyStr : List Char → PyVal
  | pyInt : ℤ → PyVal
  | pyNone : PyVal
deriving DecidableEq

/-- `type(v)` for the modelled Python values. -/
def PyVal.ty : PyVal → PyTy
  | .pyStr _ => .strTy
  | .pyInt _ => .intTy
  | .pyNone => .noneTy

/-- The character content of a modelled Python value, when it is a string. -/
def PyVal.asStr : PyVal → List Char
  | .pyStr s => s
  | _ => []

/-- The state a successfully constructed `StringAligner` holds (align.py
lines 42-51; the cached matrix fields all start as `None` and are derived
lazily, so only the inputs and the configuration are state). -/
structure StringAligner where
  s1 : List Char
  s2 : List Char
  config : Config
deriving DecidableEq

/-- The `AssertionError` raised by a failing `assert` in `__init__`. -/
inductive InitError where
  | assertionError : InitError
deriving DecidableEq

/-- `StringAligner.__init__` (align.py lines 36-51): the chained type check
`type(s1) == type(s2) == type("")` (line 37), then the four range asserts
(lines 38-41), then field assignment; no other effect. -/
def stringAlignerInit (s1 s2 : PyVal) (c : Config) : Except InitError StringAligner :=
  if s1.ty = s2.ty ∧ s2.ty = PyTy.strTy then
    if 0 < c.gapOpeningPenalty then
      if 0 ≤ c.gapExtensionPenalty then
        if 0 < c.mismatchPenalty then
          if c.matchBonus ≤ 0 then
            .ok ⟨s1.asStr, s2.asStr, c⟩
          else .error .assertionError
        else .error .assertionError
      else .error .assertionError
    else .error .assertionError
  else .error .assertionError

end Stringalign

namespace Stringalign

/-! ### Basic unfolding facts about the filled matrices -/

lemma cell_zero_zero (c : Config) (s1 s2 : List Char) :
    cell c s1 s2 0 0 = (⊤, ⊤, ⊤) := rfl

lemma cell_zero_succ (c : Config) (s1 s2 : List Char) (j : ℕ) :
    cell c s1 s2 0 (j + 1) =
      (⊤, ((c.gapOpeningPenalty + c.gapExtensionPenalty * (j : ℤ) : ℤ) : Score), ⊤) := rfl

lemma cell_succ_zero (c : Config) (s1 s2 : List Char) (i : ℕ) :
    cell c s1 s2 (i + 1) 0 =
      (⊤, ⊤, ((c.gapOpeningPenalty + c.gapExtensionPenalty * (i : ℤ) : ℤ) : Score)) := rfl

lemma cell_succ_succ (c : Config) (s1 s2 : List Char) (i j : ℕ) :
    cell c s1 s2 (i + 1) (j + 1) =
      fillCell c (s1.getD i ' ') (s2.getD j ' ')
        (cell c s1 s2 i j) (cell c s1 s2 (i + 1) j) (cell c s1 s2 i (j + 1)) := rfl

lemma matchMatrix_zero_left (c : Config) (s1 s2 : List Char) (j : ℕ) :
    matchMatrix c s1 s2 0 j = ⊤ := by
  cases j <;> rfl

lemma matchMatrix_zero_right (c : Config) (s1 s2 : List Char) (i : ℕ) :
    matchMatrix c s1 s2 i 0 = ⊤ := by
  cases i <;> rfl

lemma gapMatrix2_zero_left (c : Config) (s1 s2 : List Char) (j : ℕ) :
    gapMatrix2 c s1 s2 0 j = ⊤ := by
  cases j <;> rfl

lemma gapMatrix1_succ_zero (c : Config) (s1 s2 : List Char) (i : ℕ) :
    gapMatrix1 c s1 s2 (i + 1) 0 = ⊤ := rfl

/-! ### Helpers on three-way minima -/

lemma min3_choice (a b c : Score) :
    min a (min b c) = a ∨ min a (min b c) = b ∨ min a (min b c) = c := by
  rcases min_choice a (min b c) with h | h
  · exact Or.inl h
  · rcases min_choice b c with h2 | h2 <;> rw [h, h2]
    · exact Or.inr (Or.inl rfl)
    · exact Or.inr (Or.inr rfl)

lemma min3_ne_top_b {b : Score} (a c : Score) (hb : b ≠ ⊤) : min a (min b c) ≠ ⊤ := by
  intro h
  exact hb (min_eq_top.mp (min_eq_top.mp h).2).1

lemma min3_ne_top_c {c : Score} (a b : Score) (hc : c ≠ ⊤) : min a (min b c) ≠ ⊤ := by
  intro h
  exact hc (min_eq_top.mp (min_eq_top.mp h).2).2

lemma min3_eq_top_b {a b c : Score} (h : min a (min b c) = ⊤) : b = ⊤ :=
  (min_eq_top.mp (min_eq_top.mp h).2).1

lemma min3_eq_top_c {a b c : Score} (h : min a (min b c) = ⊤) : c = ⊤ :=
  (min_eq_top.mp (min_eq_top.mp h).2).2

/-! ### Symmetry of the fill under swapping the two sequences -/

lemma fillCell_swap (c : Config) (ch1 ch2 : Char) (d l u : Cell) :
    fillCell c ch2 ch1 (d.1, d.2.2, d.2.1) (u.1, u.2.2, u.2.1) (l.1, l.2.2, l.2.1) =
      ((fillCell c ch1 ch2 d l u).1, (fillCell c ch1 ch2 d l u).2.2,
        (fillCell c ch1 ch2 d l u).2.1) := by
  obtain ⟨dm, dg1, dg2⟩ := d
  obtain ⟨lm, lg1, lg2⟩ := l
  obtain ⟨um, ug1, ug2⟩ := u
  by_cases h : ch1 = ch2
  · subst h
    simp only [fillCell, if_pos rfl]
    refine Prod.ext ?_ (Prod.ext ?_ ?_) <;> simp [min_comm, min_left_comm, min_assoc]
  · simp only [fillCell, if_neg h, if_neg (fun h2 : ch2 = ch1 => h h2.symm)]
    refine Prod.ext ?_ (Prod.ext ?_ ?_) <;> simp [min_comm, min_left_comm, min_assoc]

lemma cell_swap (c : Config) (s1 s2 : List Char) :
    ∀ (n : ℕ) (i j : ℕ), i + j ≤ n →
      cell c s2 s1 j i =
        ((cell c s1 s2 i j).1, (cell c s1 s2 i j).2.2, (cell c s1 s2 i j).2.1) := by
  intro n
  induction n with
  | zero =>
    intro i j h
    have hi : i = 0 := by omega
    have hj : j = 0 := by omega
    subst hi; subst hj; rfl
  | succ n ihn =>
    intro i j h
    cases i with
    | zero =>
      cases j with
      | zero => rfl
      | succ j => rfl
    | succ i =>
      cases j with
      | zero => rfl
      | succ j =>
        have h1 := ihn i j (by omega)
        have h2 := ihn (i + 1) j (by omega)
        have h3 := ihn i (j + 1) (by omega)
        calc cell c s2 s1 (j + 1) (i + 1)
            = fillCell c (s2.getD j ' ') (s1.getD i ' ')
                (cell c s2 s1 j i) (cell c s2 s1 (j + 1) i) (cell c s2 s1 j (i + 1)) := rfl
          _ = fillCell c (s2.getD j ' ') (s1.getD i ' ')
                ((cell c s1 s2 i j).1, (cell c s1 s2 i j).2.2, (cell c s1 s2 i j).2.1)
                ((cell c s1 s2 i (j + 1)).1, (cell c s1 s2 i (j + 1)).2.2,
                  (cell c s1 s2 i (j + 1)).2.1)
                ((cell c s1 s2 (i + 1) j).1, (cell c s1 s2 (i + 1) j).2.2,
                  (cell c s1 s2 (i + 1) j).2.1) := by rw [h1, h2, h3]
          _ = ((cell c s1 s2 (i + 1) (j + 1)).1, (cell c s1 s2 (i + 1) (j + 1)).2.2,
                (cell c s1 s2 (i + 1) (j + 1)).2.1) := by
              rw [cell_succ_succ]
              exact fillCell_swap c (s1.getD i ' ') (s2.getD j ' ')
                (cell c s1 s2 i j) (cell c s1 s2 (i + 1) j) (cell c s1 s2 i (j + 1))

lemma cell_swap' (c : Config) (s1 s2 : List Char) (i j : ℕ) :
    cell c s2 s1 j i =
      ((cell c s1 s2 i j).1, (cell c s1 s2 i j).2.2, (cell c s1 s2 i j).2.1) :=
  cell_swap c s1 s2 (i + j) i j le_rfl

lemma gapMatrix2_eq_swap (c : Config) (s1 s2 : List Char) (i j : ℕ) :
    gapMatrix2 c s1 s2 i j = gapMatrix1 c s2 s1 j i := by
  unfold gapMatrix1 gapMatrix2
  rw [cell_swap' c s1 s2 i j]

/-! ### Interior gap cells are always finite -/

lemma gapMatrix1_ne_top (c : Config) (s1 s2 : List Char) :
    ∀ (j i : ℕ), 1 ≤ j → gapMatrix1 c s1 s2 i j ≠ ⊤ := by
  intro j
  induction j with
  | zero => intro i h; omega
  | succ j ihj =>
    intro i _
    cases i with
    | zero =>
      rw [gapMatrix1, cell_zero_succ]
      exact WithTop.coe_ne_top
    | succ i =>
      rw [gapMatrix1, cell_succ_succ]
      show (fillCell c _ _ _ _ _).2.1 ≠ ⊤
      simp only [fillCell]
      cases j with
      | zero =>
        apply min3_ne_top_c
        rw [show (cell c s1 s2 (i + 1) 0).2.2 =
          ((c.gapOpeningPenalty + c.gapExtensionPenalty * ((i : ℕ) : ℤ) : ℤ) : Score) from rfl]
        rw [show ((c.gapOpeningPenalty : Score) + (c.gapExtensionPenalty : Score) +
            ((c.gapOpeningPenalty + c.gapExtensionPenalty * ((i : ℕ) : ℤ) : ℤ) : Score)) =
          ((c.gapOpeningPenalty + c.gapExtensionPenalty +
            (c.gapOpeningPenalty + c.gapExtensionPenalty * ((i : ℕ) : ℤ)) : ℤ) : Score) from by
          push_cast; ring_nf]
        exact WithTop.coe_ne_top
      | succ j2 =>
        apply min3_ne_top_b
        exact WithTop.add_ne_top.mpr ⟨WithTop.coe_ne_top, ihj (i + 1) (by omega)⟩

lemma gapMatrix2_ne_top (c : Config) (s1 s2 : List Char) :
    ∀ (i j : ℕ), 1 ≤ i → gapMatrix2 c s1 s2 i j ≠ ⊤ := by
  intro i j hi
  rw [gapMatrix2_eq_swap]
  exact gapMatrix1_ne_top c s2 s1 i j hi

end Stringalign

namespace Stringalign

/-- Compatibility of a traceback state with a position: each state can only be
current when the move it makes stays inside the matrices (the invariant that
keeps the Python loop of align.py lines 178-205 away from negative indices). -/
def stOK : TbState → ℕ → ℕ → Prop
  | .matchSt, i, j => 1 ≤ i ∧ 1 ≤ j
  | .gap1St, _, j => 1 ≤ j
  | .gap2St, i, _ => 1 ≤ i

lemma selectState_ok (c : Config) (s1 s2 : List Char) (i j : ℕ) :
    ∃ st, selectState c s1 s2 i j = .ok st ∧ (stOK st i j ∨ (i = 0 ∧ j = 0)) := by
  by_cases h0 : i = 0 ∧ j = 0
  · obtain ⟨hi, hj⟩ := h0
    subst hi; subst hj
    refine ⟨.matchSt, ?_, Or.inr ⟨rfl, rfl⟩⟩
    have hm : matchMatrix c s1 s2 0 0 = ⊤ := rfl
    have hg1 : gapMatrix1 c s1 s2 0 0 = ⊤ := rfl
    have hg2 : gapMatrix2 c s1 s2 0 0 = ⊤ := rfl
    simp [selectState, hm, hg1, hg2]
  · simp only [selectState]
    split_ifs with h1 h2 h3
    · refine ⟨.matchSt, rfl, Or.inl ⟨?_, ?_⟩⟩
      · by_contra hi
        have hi0 : i = 0 := by omega
        subst hi0
        have hj1 : 1 ≤ j := by
          rcases Nat.eq_zero_or_pos j with hj | hj
          · exact absurd ⟨rfl, hj⟩ h0
          · exact hj
        rw [matchMatrix_zero_left] at h1
        exact gapMatrix1_ne_top c s1 s2 j 0 hj1 (min3_eq_top_b h1)
      · by_contra hj
        have hj0 : j = 0 := by omega
        subst hj0
        have hi1 : 1 ≤ i := by
          rcases Nat.eq_zero_or_pos i with hi | hi
          · exact absurd ⟨hi, rfl⟩ h0
          · exact hi
        rw [matchMatrix_zero_right] at h1
        exact gapMatrix2_ne_top c s1 s2 i 0 hi1 (min3_eq_top_c h1)
    · refine ⟨.gap1St, rfl, Or.inl ?_⟩
      show 1 ≤ j
      by_contra hj
      have hj0 : j = 0 := by omega
      subst hj0
      have hi1 : 1 ≤ i := by
        rcases Nat.eq_zero_or_pos i with hi | hi
        · exact absurd ⟨hi, rfl⟩ h0
        · exact hi
      obtain ⟨i2, rfl⟩ : ∃ i2, i = i2 + 1 := ⟨i - 1, by omega⟩
      rw [gapMatrix1_succ_zero] at h2
      exact gapMatrix2_ne_top c s1 s2 (i2 + 1) 0 hi1 (min3_eq_top_c h2)
    · refine ⟨.gap2St, rfl, Or.inl ?_⟩
      show 1 ≤ i
      by_contra hi
      have hi0 : i = 0 := by omega
      subst hi0
      have hj1 : 1 ≤ j := by
        rcases Nat.eq_zero_or_pos j with hj | hj
        · exact absurd ⟨rfl, hj⟩ h0
        · exact hj
      rw [gapMatrix2_zero_left] at h3
      exact gapMatrix1_ne_top c s1 s2 j 0 hj1 (min3_eq_top_b h3)
    · exact absurd (min3_choice (matchMatrix c s1 s2 i j) (gapMatrix1 c s1 s2 i j)
        (gapMatrix2 c s1 s2 i j)) (by simp [h1, h2, h3])

lemma initialState_ok (c : Config) (s1 s2 : List Char) :
    stOK (initialState c s1 s2) s1.length s2.length ∨
      (s1.length = 0 ∧ s2.length = 0) := by
  by_cases h0 : s1.length = 0 ∧ s2.length = 0
  · exact Or.inr h0
  · left
    simp only [initialState, getAlignmentScore]
    split_ifs with h1 h2
    · constructor
      · by_contra hi
        have hi0 : s1.length = 0 := by omega
        have hj1 : 1 ≤ s2.length := by
          rcases Nat.eq_zero_or_pos s2.length with hj | hj
          · exact absurd ⟨hi0, hj⟩ h0
          · exact hj
        rw [hi0, matchMatrix_zero_left] at h1
        exact gapMatrix1_ne_top c s1 s2 s2.length 0 hj1 (min3_eq_top_b h1)
      · by_contra hj
        have hj0 : s2.length = 0 := by omega
        have hi1 : 1 ≤ s1.length := by
          rcases Nat.eq_zero_or_pos s1.length with hi | hi
          · exact absurd ⟨hi, hj0⟩ h0
          · exact hi
        rw [hj0, matchMatrix_zero_right] at h1
        exact gapMatrix2_ne_top c s1 s2 s1.length 0 hi1 (min3_eq_top_c h1)
    · show 1 ≤ s2.length
      by_contra hj
      have hj0 : s2.length = 0 := by omega
      have hi1 : 1 ≤ s1.length := by
        rcases Nat.eq_zero_or_pos s1.length with hi | hi
        · exact absurd ⟨hi, hj0⟩ h0
        · exact hi
      obtain ⟨i2, hs⟩ : ∃ i2, s1.length = i2 + 1 := ⟨s1.length - 1, by omega⟩
      rw [hj0, hs, gapMatrix1_succ_zero] at h2
      exact gapMatrix2_ne_top c s1 s2 (i2 + 1) 0 (by omega) (min3_eq_top_c h2)
    · show 1 ≤ s1.length
      by_contra hi
      have hi0 : s1.length = 0 := by omega
      have hj1 : 1 ≤ s2.length := by
        rcases Nat.eq_zero_or_pos s2.length with hj | hj
        · exact absurd ⟨hi0, hj⟩ h0
        · exact hj
      apply h2
      rw [hi0, matchMatrix_zero_left, gapMatrix2_zero_left]
      rw [min_eq_right le_top, min_eq_left le_top]

end Stringalign

namespace Stringalign

/-! ### Step equations for the traceback loop -/

lemma traceback_done (c : Config) (s1 s2 : List Char) (fuel : ℕ) (st : TbState)
    (i j : ℕ) (acc1 acc2 : List Char) (h : i = 0 ∧ j = 0) :
    traceback c s1 s2 fuel st i j acc1 acc2 = .ok (acc1, acc2) := by
  cases fuel with
  | zero => simp [traceback, h.1, h.2]
  | succ f => cases st <;> simp [traceback, h.1, h.2]

lemma traceback_match_ok (c : Config) (s1 s2 : List Char) (f : ℕ) (st2 : TbState)
    (i j : ℕ) (acc1 acc2 : List Char) (h0 : ¬(i = 0 ∧ j = 0)) (hij : 1 ≤ i ∧ 1 ≤ j)
    (hsel : selectState c s1 s2 (i - 1) (j - 1) = .ok st2) :
    traceback c s1 s2 (f + 1) .matchSt i j acc1 acc2 =
      traceback c s1 s2 f st2 (i - 1) (j - 1)
        (acc1 ++ [s1.getD (i - 1) ' ']) (acc2 ++ [s2.getD (j - 1) ' ']) := by
  simp only [traceback]
  rw [if_neg h0, if_pos hij, hsel]

lemma traceback_gap1_ok (c : Config) (s1 s2 : List Char) (f : ℕ) (st2 : TbState)
    (i j : ℕ) (acc1 acc2 : List Char) (h0 : ¬(i = 0 ∧ j = 0)) (hj : 1 ≤ j)
    (hsel : selectState c s1 s2 i (j - 1) = .ok st2) :
    traceback c s1 s2 (f + 1) .gap1St i j acc1 acc2 =
      traceback c s1 s2 f st2 i (j - 1)
        (acc1 ++ [gapChar]) (acc2 ++ [s2.getD (j - 1) ' ']) := by
  simp only [traceback]
  rw [if_neg h0, if_pos hj, hsel]

lemma traceback_gap2_ok (c : Config) (s1 s2 : List Char) (f : ℕ) (st2 : TbState)
    (i j : ℕ) (acc1 acc2 : List Char) (h0 : ¬(i = 0 ∧ j = 0)) (hi : 1 ≤ i)
    (hsel : selectState c s1 s2 (i - 1) j = .ok st2) :
    traceback c s1 s2 (f + 1) .gap2St i j acc1 acc2 =
      traceback c s1 s2 f st2 (i - 1) j
        (acc1 ++ [s1.getD (i - 1) ' ']) (acc2 ++ [gapChar]) := by
  simp only [traceback]
  rw [if_neg h0, if_pos hi, hsel]

/-! ### List helpers for the gap-removal round-trip -/

lemma removeGaps_nil : removeGaps [] = [] := rfl

lemma removeGaps_cons_ne (ch : Char) (l : List Char) (h : ch ≠ gapChar) :
    removeGaps (ch :: l) = ch :: removeGaps l := by
  simp [removeGaps, h]

lemma removeGaps_cons_gap (l : List Char) :
    removeGaps (gapChar :: l) = removeGaps l := by
  simp [removeGaps]

lemma getD_mem (l : List Char) (k : ℕ) (h : k < l.length) : l.getD k ' ' ∈ l := by
  rw [List.getD_eq_getElem l ' ' h]
  exact List.getElem_mem h

lemma take_reverse_succ (l : List Char) (i : ℕ) (h1 : 1 ≤ i) (h2 : i ≤ l.length) :
    (l.take i).reverse = l.getD (i - 1) ' ' :: (l.take (i - 1)).reverse := by
  obtain ⟨k, rfl⟩ : ∃ k, i = k + 1 := ⟨i - 1, by omega⟩
  have hk : k < l.length := by omega
  rw [List.take_succ]
  simp [List.getElem?_eq_getElem hk, List.getD_eq_getElem l ' ' hk]

/-! ### The traceback always succeeds and reproduces the inputs -/

lemma traceback_ok (c : Config) (s1 s2 : List Char) :
    ∀ (fuel : ℕ) (st : TbState) (i j : ℕ) (acc1 acc2 : List Char),
      i ≤ s1.length → j ≤ s2.length → i + j ≤ fuel →
      (stOK st i j ∨ (i = 0 ∧ j = 0)) →
      ∃ e1 e2,
        traceback c s1 s2 fuel st i j acc1 acc2 = .ok (acc1 ++ e1, acc2 ++ e2) ∧
        e1.length = e2.length ∧
        (gapChar ∉ s1 → removeGaps e1 = (s1.take i).reverse) ∧
        (gapChar ∉ s2 → removeGaps e2 = (s2.take j).reverse) := by
  intro fuel
  induction fuel with
  | zero =>
    intro st i j acc1 acc2 hi hj hf _
    have h0 : i = 0 ∧ j = 0 := by omega
    refine ⟨[], [], ?_, rfl, ?_, ?_⟩
    · rw [traceback_done c s1 s2 0 st i j acc1 acc2 h0]
      simp
    · intro _; rw [h0.1]; simp [removeGaps_nil]
    · intro _; rw [h0.2]; simp [removeGaps_nil]
  | succ f ih =>
    intro st i j acc1 acc2 hi hj hf hok
    by_cases h0 : i = 0 ∧ j = 0
    · refine ⟨[], [], ?_, rfl, ?_, ?_⟩
      · rw [traceback_done c s1 s2 (f + 1) st i j acc1 acc2 h0]
        simp
      · intro _; rw [h0.1]; simp [removeGaps_nil]
      · intro _; rw [h0.2]; simp [removeGaps_nil]
    · have hst : stOK st i j := hok.resolve_right h0
      cases st with
      | matchSt =>
        obtain ⟨hi1, hj1⟩ := hst
        obtain ⟨st2, hsel, hok2⟩ := selectState_ok c s1 s2 (i - 1) (j - 1)
        obtain ⟨e1, e2, htb, hlen, hr1, hr2⟩ :=
          ih st2 (i - 1) (j - 1)
            (acc1 ++ [s1.getD (i - 1) ' ']) (acc2 ++ [s2.getD (j - 1) ' '])
            (by omega) (by omega) (by omega) hok2
        refine ⟨s1.getD (i - 1) ' ' :: e1, s2.getD (j - 1) ' ' :: e2, ?_,
          by simp [hlen], ?_, ?_⟩
        · rw [traceback_match_ok c s1 s2 f st2 i j acc1 acc2 h0 ⟨hi1, hj1⟩ hsel, htb]
          simp
        · intro hg
          have hmem : s1.getD (i - 1) ' ' ∈ s1 := getD_mem s1 (i - 1) (by omega)
          have hne : s1.getD (i - 1) ' ' ≠ gapChar := fun hc => hg (hc ▸ hmem)
          rw [removeGaps_cons_ne _ _ hne, hr1 hg, take_reverse_succ s1 i hi1 hi]
        · intro hg
          have hmem : s2.getD (j - 1) ' ' ∈ s2 := getD_mem s2 (j - 1) (by omega)
          have hne : s2.getD (j - 1) ' ' ≠ gapChar := fun hc => hg (hc ▸ hmem)
          rw [removeGaps_cons_ne _ _ hne, hr2 hg, take_reverse_succ s2 j hj1 hj]
      | gap1St =>
        have hj1 : 1 ≤ j := hst
        obtain ⟨st2, hsel, hok2⟩ := selectState_ok c s1 s2 i (j - 1)
        obtain ⟨e1, e2, htb, hlen, hr1, hr2⟩ :=
          ih st2 i (j - 1) (acc1 ++ [gapChar]) (acc2 ++ [s2.getD (j - 1) ' '])
            hi (by omega) (by omega) hok2
        refine ⟨gapChar :: e1, s2.getD (j - 1) ' ' :: e2, ?_, by simp [hlen], ?_, ?_⟩
        · rw [traceback_gap1_ok c s1 s2 f st2 i j acc1 acc2 h0 hj1 hsel, htb]
          simp
        · intro hg
          rw [removeGaps_cons_gap, hr1 hg]
        · intro hg
          have hmem : s2.getD (j - 1) ' ' ∈ s2 := getD_mem s2 (j - 1) (by omega)
          have hne : s2.getD (j - 1) ' ' ≠ gapChar := fun hc => hg (hc ▸ hmem)
          rw [removeGaps_cons_ne _ _ hne, hr2 hg, take_reverse_succ s2 j hj1 hj]
      | gap2St =>
        have hi1 : 1 ≤ i := hst
        obtain ⟨st2, hsel, hok2⟩ := selectState_ok c s1 s2 (i - 1) j
        obtain ⟨e1, e2, htb, hlen, hr1, hr2⟩ :=
          ih st2 (i - 1) j (acc1 ++ [s1.getD (i - 1) ' ']) (acc2 ++ [gapChar])
            (by omega) hj (by omega) hok2
        refine ⟨s1.getD (i - 1) ' ' :: e1, gapChar :: e2, ?_, by simp [hlen], ?_, ?_⟩
        · rw [traceback_gap2_ok c s1 s2 f st2 i j acc1 acc2 h0 hi1 hsel, htb]
          simp
        · intro hg
          have hmem : s1.getD (i - 1) ' ' ∈ s1 := getD_mem s1 (i - 1) (by omega)
          have hne : s1.getD (i - 1) ' ' ≠ gapChar := fun hc => hg (hc ▸ hmem)
          rw [removeGaps_cons_ne _ _ hne, hr1 hg, take_reverse_succ s1 i hi1 hi]
        · intro hg
          rw [removeGaps_cons_gap, hr2 hg]

/-- The alignment construction always returns a pair, never an error. -/
lemma constructAlignment_ok (c : Config) (s1 s2 : List Char) :
    ∃ a1 a2,
      constructAlignment c s1 s2 = .ok (a1, a2) ∧
      a1.length = a2.length ∧
      (gapChar ∉ s1 → removeGaps a1 = s1) ∧
      (gapChar ∉ s2 → removeGaps a2 = s2) := by
  obtain ⟨e1, e2, htb, hlen, hr1, hr2⟩ :=
    traceback_ok c s1 s2 (s1.length + s2.length) (initialState c s1 s2)
      s1.length s2.length [] [] le_rfl le_rfl le_rfl (initialState_ok c s1 s2)
  refine ⟨e1.reverse, e2.reverse, ?_, by simp [hlen], ?_, ?_⟩
  · rw [constructAlignment, htb]
    simp
  · intro hg
    rw [show removeGaps e1.reverse = (removeGaps e1).reverse from
      List.filter_reverse _ e1, hr1 hg]
    simp
  · intro hg
    rw [show removeGaps e2.reverse = (removeGaps e2).reverse from
      List.filter_reverse _ e2, hr2 hg]
    simp

end Stringalign

namespace Stringalign

deriving instance DecidableEq for Except

/-- C1: the spec scenario claims score `4 x matchBonus = -8` and alignment
`("AAAA", "AAAA")` for `s1 = s2 = "AAAA"` under the defaults.  The code fails
this: because the `[0][0]` corner of all three matrices is `inf`, the
alignment that starts with a match column is unreachable, so
`getAlignmentScore` returns `-1` and `align` returns the gapped pair
`("A-AAA", "-AAAA")`. -/
theorem claim_C1_aaaa_eval :
    getAlignmentScore defaultConfig "AAAA".toList "AAAA".toList = ((-1 : ℤ) : Score) ∧
    getAlignmentScore defaultConfig "AAAA".toList "AAAA".toList ≠ ((-8 : ℤ) : Score) ∧
    align defaultConfig "AAAA".toList "AAAA".toList =
      .ok ("A-AAA".toList, "-AAAA".toList) ∧
    align defaultConfig "AAAA".toList "AAAA".toList ≠
      .ok ("AAAA".toList, "AAAA".toList) := by
  decide

/-- C2 counterexample: the round-trip fails when an input string itself
contains the gap marker.  For `s1 = "-"`, `s2 = ""` with the defaults,
`align` returns `("-", "-")`, and removing gap markers from the first aligned
string gives `""`, not `s1`. -/
theorem claim_C2_counterexample :
    align defaultConfig "-".toList "".toList = .ok ("-".toList, "-".toList) ∧
    removeGaps "-".toList ≠ "-".toList := by
  decide

/-- C2 (amended): for every valid configuration and all inputs that do not
contain the gap marker `'-'`, `align` returns a pair of equal length whose
gap-removal reproduces the inputs exactly. -/
theorem claim_C2_roundtrip (c : Config) (s1 s2 : List Char) (_hc : c.valid)
    (h1 : gapChar ∉ s1) (h2 : gapChar ∉ s2) :
    ∃ a1 a2, align c s1 s2 = .ok (a1, a2) ∧ a1.length = a2.length ∧
      removeGaps a1 = s1 ∧ removeGaps a2 = s2 := by
  obtain ⟨a1, a2, h, hlen, hr1, hr2⟩ := constructAlignment_ok c s1 s2
  exact ⟨a1, a2, h, hlen, hr1 h1, hr2 h2⟩

theorem claim_C2_roundtrip_witness :
    defaultConfig.valid ∧ gapChar ∉ "AB".toList ∧ gapChar ∉ "B".toList ∧
      (∃ a1 a2, align defaultConfig "AB".toList "B".toList = .ok (a1, a2) ∧
        a1.length = a2.length ∧ removeGaps a1 = "AB".toList ∧
        removeGaps a2 = "B".toList) :=
  ⟨by decide, by decide, by decide,
    claim_C2_roundtrip defaultConfig "AB".toList "B".toList (by decide)
      (by decide) (by decide)⟩

/-- C3: for every valid configuration and indices `1 <= i <= m`,
`1 <= j <= n`, the filled matrices satisfy the coupled recurrence of
`_computeScoreMatrix` (align.py lines 127-148). -/
theorem claim_C3_recurrence (c : Config) (s1 s2 : List Char) (i j : ℕ)
    (_hc : c.valid) (hi1 : 1 ≤ i) (hi2 : i ≤ s1.length)
    (hj1 : 1 ≤ j) (hj2 : j ≤ s2.length) :
    matchMatrix c s1 s2 i j =
      (if s1.getD (i - 1) ' ' = s2.getD (j - 1) ' ' then (c.matchBonus : Score)
        else (c.mismatchPenalty : Score)) +
        min (matchMatrix c s1 s2 (i - 1) (j - 1))
          (min (gapMatrix1 c s1 s2 (i - 1) (j - 1))
            (gapMatrix2 c s1 s2 (i - 1) (j - 1))) ∧
    gapMatrix1 c s1 s2 i j =
      min ((c.gapOpeningPenalty : Score) + (c.gapExtensionPenalty : Score) +
          matchMatrix c s1 s2 i (j - 1))
        (min ((c.gapExtensionPenalty : Score) + gapMatrix1 c s1 s2 i (j - 1))
          ((c.gapOpeningPenalty : Score) + (c.gapExtensionPenalty : Score) +
            gapMatrix2 c s1 s2 i (j - 1))) ∧
    gapMatrix2 c s1 s2 i j =
      min ((c.gapOpeningPenalty : Score) + (c.gapExtensionPenalty : Score) +
          matchMatrix c s1 s2 (i - 1) j)
        (min ((c.gapOpeningPenalty : Score) + (c.gapExtensionPenalty : Score) +
            gapMatrix1 c s1 s2 (i - 1) j)
          ((c.gapExtensionPenalty : Score) + gapMatrix2 c s1 s2 (i - 1) j)) := by
  obtain ⟨i2, rfl⟩ : ∃ i2, i = i2 + 1 := ⟨i - 1, by omega⟩
  obtain ⟨j2, rfl⟩ : ∃ j2, j = j2 + 1 := ⟨j - 1, by omega⟩
  simp only [Nat.add_sub_cancel]
  exact ⟨rfl, rfl, rfl⟩

theorem claim_C3_recurrence_witness :
    defaultConfig.valid ∧ 1 ≤ 1 ∧ 1 ≤ ("A".toList).length ∧
      (matchMatrix defaultConfig "A".toList "A".toList 1 1 =
        (if ("A".toList).getD (1 - 1) ' ' = ("A".toList).getD (1 - 1) ' '
          then (defaultConfig.matchBonus : Score)
          else (defaultConfig.mismatchPenalty : Score)) +
          min (matchMatrix defaultConfig "A".toList "A".toList (1 - 1) (1 - 1))
            (min (gapMatrix1 defaultConfig "A".toList "A".toList (1 - 1) (1 - 1))
              (gapMatrix2 defaultConfig "A".toList "A".toList (1 - 1) (1 - 1))) ∧
      gapMatrix1 defaultConfig "A".toList "A".toList 1 1 =
        min ((defaultConfig.gapOpeningPenalty : Score) +
            (defaultConfig.gapExtensionPenalty : Score) +
            matchMatrix defaultConfig "A".toList "A".toList 1 (1 - 1))
          (min ((defaultConfig.gapExtensionPenalty : Score) +
              gapMatrix1 defaultConfig "A".toList "A".toList 1 (1 - 1))
            ((defaultConfig.gapOpeningPenalty : Score) +
              (defaultConfig.gapExtensionPenalty : Score) +
              gapMatrix2 defaultConfig "A".toList "A".toList 1 (1 - 1))) ∧
      gapMatrix2 defaultConfig "A".toList "A".toList 1 1 =
        min ((defaultConfig.gapOpeningPenalty : Score) +
            (defaultConfig.gapExtensionPenalty : Score) +
            matchMatrix defaultConfig "A".toList "A".toList (1 - 1) 1)
          (min ((defaultConfig.gapOpeningPenalty : Score) +
              (defaultConfig.gapExtensionPenalty : Score) +
              gapMatrix1 defaultConfig "A".toList "A".toList (1 - 1) 1)
            ((defaultConfig.gapExtensionPenalty : Score) +
              gapMatrix2 defaultConfig "A".toList "A".toList (1 - 1) 1))) :=
  ⟨by decide, le_rfl, by decide,
    claim_C3_recurrence defaultConfig "A".toList "A".toList 1 1 (by decide)
      le_rfl (by decide) le_rfl (by decide)⟩

/-- C4: the spec claims score `0` and the empty alignment for two empty
inputs.  The code does return the empty alignment, but the score is `inf`,
not `0`, because all three `[0][0]` corner cells are `inf`. -/
theorem claim_C4_empty_eval :
    getAlignmentScore defaultConfig [] [] = ⊤ ∧
    getAlignmentScore defaultConfig [] [] ≠ ((0 : ℤ) : Score) ∧
    align defaultConfig [] [] = .ok ([], []) := by
  decide

/-- C5: swapping the two input sequences leaves the alignment score
unchanged, for every valid configuration. -/
theorem claim_C5_score_symmetry (c : Config) (s1 s2 : List Char) (_hc : c.valid) :
    getAlignmentScore c s1 s2 = getAlignmentScore c s2 s1 := by
  unfold getAlignmentScore matchMatrix gapMatrix1 gapMatrix2
  rw [cell_swap' c s1 s2 s1.length s2.length]
  simp [min_comm]

theorem claim_C5_score_symmetry_witness :
    defaultConfig.valid ∧
      getAlignmentScore defaultConfig "AB".toList "C".toList =
        getAlignmentScore defaultConfig "C".toList "AB".toList :=
  ⟨by decide, claim_C5_score_symmetry defaultConfig "AB".toList "C".toList (by decide)⟩

end Stringalign

namespace Stringalign

/-- C6: the boundary values set by `_initializeMatrix` (align.py lines 96-107),
in terms of the original index arithmetic `gapOpen + gapExtend * (index - 1)`
over the integers. -/
theorem claim_C6_boundary (c : Config) (s1 s2 : List Char) (_hc : c.valid)
    (i j : ℕ) (hi : i ≤ s1.length) (hj : j ≤ s2.length) :
    matchMatrix c s1 s2 0 j = ⊤ ∧
    matchMatrix c s1 s2 i 0 = ⊤ ∧
    (1 ≤ j → gapMatrix1 c s1 s2 0 j =
      ((c.gapOpeningPenalty + c.gapExtensionPenalty * ((j : ℤ) - 1) : ℤ) : Score)) ∧
    (1 ≤ i → gapMatrix1 c s1 s2 i 0 = ⊤) ∧
    (1 ≤ i → gapMatrix2 c s1 s2 i 0 =
      ((c.gapOpeningPenalty + c.gapExtensionPenalty * ((i : ℤ) - 1) : ℤ) : Score)) ∧
    (1 ≤ j → gapMatrix2 c s1 s2 0 j = ⊤) := by
  refine ⟨matchMatrix_zero_left c s1 s2 j, matchMatrix_zero_right c s1 s2 i,
    ?_, ?_, ?_, ?_⟩
  · intro hj1
    obtain ⟨j2, rfl⟩ : ∃ j2, j = j2 + 1 := ⟨j - 1, by omega⟩
    rw [gapMatrix1, cell_zero_succ]
    exact congrArg (fun z : ℤ => (z : Score)) (by push_cast; ring)
  · intro hi1
    obtain ⟨i2, rfl⟩ : ∃ i2, i = i2 + 1 := ⟨i - 1, by omega⟩
    exact gapMatrix1_succ_zero c s1 s2 i2
  · intro hi1
    obtain ⟨i2, rfl⟩ : ∃ i2, i = i2 + 1 := ⟨i - 1, by omega⟩
    rw [gapMatrix2, cell_succ_zero]
    exact congrArg (fun z : ℤ => (z : Score)) (by push_cast; ring)
  · intro hj1
    exact gapMatrix2_zero_left c s1 s2 j

theorem claim_C6_boundary_witness :
    defaultConfig.valid ∧ 1 ≤ ("A".toList).length ∧ 1 ≤ ("B".toList).length ∧
      (matchMatrix defaultConfig "A".toList "B".toList 0 1 = ⊤ ∧
       matchMatrix defaultConfig "A".toList "B".toList 1 0 = ⊤ ∧
       (1 ≤ 1 → gapMatrix1 defaultConfig "A".toList "B".toList 0 1 =
         ((defaultConfig.gapOpeningPenalty +
           defaultConfig.gapExtensionPenalty * (((1 : ℕ) : ℤ) - 1) : ℤ) : Score)) ∧
       (1 ≤ 1 → gapMatrix1 defaultConfig "A".toList "B".toList 1 0 = ⊤) ∧
       (1 ≤ 1 → gapMatrix2 defaultConfig "A".toList "B".toList 1 0 =
         ((defaultConfig.gapOpeningPenalty +
           defaultConfig.gapExtensionPenalty * (((1 : ℕ) : ℤ) - 1) : ℤ) : Score)) ∧
       (1 ≤ 1 → gapMatrix2 defaultConfig "A".toList "B".toList 0 1 = ⊤)) :=
  ⟨by decide, by decide, by decide,
    claim_C6_boundary defaultConfig "A".toList "B".toList (by decide) 1 1
      (by decide) (by decide)⟩

/-- C7: for string inputs, construction fails with the assertion error exactly
when a parameter is out of range, and otherwise only produces the instance
holding the two strings and the configuration. -/
theorem claim_C7_validation (s1 s2 : List Char) (c : Config) :
    stringAlignerInit (.pyStr s1) (.pyStr s2) c =
      (if c.gapOpeningPenalty ≤ 0 ∨ c.gapExtensionPenalty < 0 ∨
          c.mismatchPenalty ≤ 0 ∨ 0 < c.matchBonus
        then .error .assertionError
        else .ok ⟨s1, s2, c⟩) := by
  have hty : (PyVal.pyStr s1).ty = (PyVal.pyStr s2).ty ∧
      (PyVal.pyStr s2).ty = PyTy.strTy := ⟨rfl, rfl⟩
  rw [stringAlignerInit, if_pos hty]
  split_ifs with h1 h2 h3 h4 h5 <;> first
    | rfl
    | (exfalso; omega)

/-- C8: the traceback never raises the `InconsistentState` error
(align.py line 205): the computed minimum of the three matrix values always
equals one of them, and the whole traceback in fact always succeeds. -/
theorem claim_C8_no_inconsistent_state (c : Config) (s1 s2 : List Char)
    (_hc : c.valid) :
    align c s1 s2 ≠ .error .inconsistentState := by
  obtain ⟨a1, a2, h, -, -, -⟩ := constructAlignment_ok c s1 s2
  rw [align, h]
  simp

theorem claim_C8_no_inconsistent_state_witness :
    defaultConfig.valid ∧
      align defaultConfig "A".toList "B".toList ≠ .error .inconsistentState :=
  ⟨by decide,
    claim_C8_no_inconsistent_state defaultConfig "A".toList "B".toList (by decide)⟩

/-- C9: the shared corner cell `[0][0]` is `inf` in all three matrices, and
therefore `matchMatrix[1][1]` is `inf` for non-empty inputs: an alignment whose
first column matches `s1[0]` with `s2[0]` never receives a finite score. -/
theorem claim_C9_corner (c : Config) (s1 s2 : List Char)
    (_h1 : 1 ≤ s1.length) (_h2 : 1 ≤ s2.length) :
    matchMatrix c s1 s2 0 0 = ⊤ ∧
    gapMatrix1 c s1 s2 0 0 = ⊤ ∧
    gapMatrix2 c s1 s2 0 0 = ⊤ ∧
    matchMatrix c s1 s2 1 1 = ⊤ := by
  refine ⟨rfl, rfl, rfl, ?_⟩
  rw [matchMatrix, cell_succ_succ]
  simp [fillCell, cell_zero_zero]

theorem claim_C9_corner_witness :
    1 ≤ ("A".toList).length ∧ 1 ≤ ("B".toList).length ∧
      (matchMatrix defaultConfig "A".toList "B".toList 0 0 = ⊤ ∧
       gapMatrix1 defaultConfig "A".toList "B".toList 0 0 = ⊤ ∧
       gapMatrix2 defaultConfig "A".toList "B".toList 0 0 = ⊤ ∧
       matchMatrix defaultConfig "A".toList "B".toList 1 1 = ⊤) :=
  ⟨by decide, by decide,
    claim_C9_corner defaultConfig "A".toList "B".toList (by decide) (by decide)⟩

/-- C10: passing a non-string as either input makes construction fail at the
type assert (align.py line 37), even when all four parameters are in range. -/
theorem claim_C10_type_check (s1 s2 : PyVal) (c : Config) (_hc : c.valid)
    (h : s1.ty ≠ PyTy.strTy ∨ s2.ty ≠ PyTy.strTy) :
    stringAlignerInit s1 s2 c = .error .assertionError := by
  rw [stringAlignerInit, if_neg]
  rintro ⟨ha, hb⟩
  rcases h with h | h
  · exact h (ha.trans hb)
  · exact h hb

theorem claim_C10_type_check_witness :
    defaultConfig.valid ∧
      ((PyVal.pyInt 0).ty ≠ PyTy.strTy ∨ (PyVal.pyStr []).ty ≠ PyTy.strTy) ∧
      stringAlignerInit (.pyInt 0) (.pyStr []) defaultConfig =
        .error .assertionError :=
  ⟨by decide, by decide,
    claim_C10_type_check (.pyInt 0) (.pyStr []) defaultConfig (by decide)
      (by decide)⟩

end Stringalign
